import Mathlib

/-!
Shallow embedding of `src/python/ghReleaseDownloader.py` (class
`ghReleaseDownloader`): a GitHub release listing/download client.
Machine integers are modelled as `Int`/`Nat`; Python `dict` as an
insertion-ordered association list; fallible code returns `Except PyError`.
The HTTP transport, the tar extractor and the tabular library are external
collaborators; their observable behavior at the call sites of this file is
modelled explicitly and documented at each definition.
-/

/-- Python exceptions that can escape the methods of the client, as raised at
the concrete call sites of the source.  `systemError` is the
`raise SystemError(e)` wrapping of a `requests.exceptions.HTTPError` (the
spec's "TransportError"); `connectionError` is the exception `requests.get`
raises on a network failure (not a subclass of `HTTPError`, hence never
caught by the source's `except` clauses); `valueError` is what
`datetime.strptime` raises on a malformed timestamp; `tarReadError` is what
`tarfile.open(mode='r|gz')` raises when the stream is not gzip data;
`typeError` is Python's error for indexing a plain list with frame-style
selectors; `emptyFrameRowError` is the tabular library's out-of-range error
for row 0 of a frame with no rows; `indexError` is `[0]` on an empty Python
list; `missingSchema` is what `requests.get(None)` raises; `keyError` is
the `d['id']` subscript of the release-count print (source line 114) on a
response object that lacks the `id` key. -/
inductive PyError where
  | systemError (status : Nat)
  | connectionError
  | valueError
  | tarReadError
  | typeError
  | emptyFrameRowError
  | indexError
  | missingSchema
  | keyError
deriving Repr, DecidableEq

/-- A calendar date, the result of `datetime.date` after truncation. -/
structure Date where
  year : Nat
  month : Nat
  day : Nat
deriving Repr, DecidableEq

/-- A field of a JSON object as the source distinguishes it: the key can be
absent from the object, present with value `null`, or present with a value.
`d.get(key, None)` collapses the first two to `None`; the subscript
`d[key]` raises `KeyError` exactly when the key is absent. -/
inductive JsonField (A : Type) where
  | absent
  | null
  | val (a : A)
deriving Repr, DecidableEq

/-- The `d.get(key, None)` projection of a JSON field. -/
def JsonField.get {A : Type} : JsonField A → Option A
  | .absent => none
  | .null => none
  | .val a => some a

/-- Whether the subscript `d[key]` raises `KeyError` for this field. -/
def JsonField.isAbsent {A : Type} : JsonField A → Bool
  | .absent => true
  | _ => false

/-- One element of the JSON array returned by the releases endpoint.  The
`id` field keeps the absent/null distinction because line 114 subscripts it
as `d['id']`; all other fields are only ever read through `d.get(key, None)`
(lines 105-113), for which `some`/`none` suffices.  Only the seven keys read
by the source are modelled. -/
structure RawRelease where
  id : JsonField Int
  name : Option String
  tag_name : Option String
  created_at : Option String
  published_at : Option String
  tarball_url : Option String
  zipball_url : Option String
deriving Repr, DecidableEq

/-- One row of the snapshot table built by `listReleases` (the dict appended
to `releases` in the loop at lines 104-113 of the source). -/
structure ReleaseRecord where
  id : Option Int
  name : Option String
  tag_name : Option String
  created_at : Option Date
  published_at : Option Date
  tarball_url : Option String
  zipball_url : Option String
deriving Repr, DecidableEq

/-- Numeric value of a decimal digit character. -/
def digitVal (c : Char) : Nat := c.toNat - 48

/-- Read one decimal digit from the front of a character list. -/
def readDigit : List Char → Option (Nat × List Char)
  | [] => none
  | c :: rest => if c.isDigit then some (digitVal c, rest) else none

/-- Read exactly two decimal digits. -/
def read2 (l : List Char) : Option (Nat × List Char) :=
  match readDigit l with
  | none => none
  | some (a, l1) =>
    match readDigit l1 with
    | none => none
    | some (b, l2) => some (a * 10 + b, l2)

/-- Read exactly four decimal digits. -/
def read4 (l : List Char) : Option (Nat × List Char) :=
  match read2 l with
  | none => none
  | some (a, l1) =>
    match read2 l1 with
    | none => none
    | some (b, l2) => some (a * 100 + b, l2)

/-- Require a fixed literal character at the front of the list. -/
def expectChar (ch : Char) : List Char → Option (List Char)
  | [] => none
  | c :: rest => if c = ch then some rest else none

/-- Gregorian leap year rule, as used by Python's `datetime`. -/
def leapYear (y : Nat) : Bool :=
  (y % 4 == 0 && y % 100 != 0) || y % 400 == 0

/-- Days in a month, as validated by Python's `datetime` constructor. -/
def daysInMonth (y m : Nat) : Nat :=
  if m = 2 then (if leapYear y then 29 else 28)
  else if m = 4 ∨ m = 6 ∨ m = 9 ∨ m = 11 then 30
  else 31

/-- `datetime.strptime(s, '%Y-%m-%dT%H:%M:%SZ')` on a zero-padded canonical
ISO-8601 UTC timestamp, returning the parsed fields on success and `none` on
failure (the `ValueError` case).  The model covers the canonical
fixed-width form produced by the GitHub API (four-digit year, two-digit
month/day/hour/minute/second); `strptime`'s additional tolerance for
unpadded one-digit fields is not modelled, since no input of interest uses
it.  Range checks mirror `strptime` plus the `datetime` constructor
(year at least 1, valid month, day within the month, `HH:MM:SS` within a
civil day). -/
def parseTimestamp (s : String) : Option Date := do
  let (y, l) ← read4 s.toList
  let l ← expectChar '-' l
  let (mo, l) ← read2 l
  let l ← expectChar '-' l
  let (d, l) ← read2 l
  let l ← expectChar 'T' l
  let (hh, l) ← read2 l
  let l ← expectChar ':' l
  let (mi, l) ← read2 l
  let l ← expectChar ':' l
  let (ss, l) ← read2 l
  let l ← expectChar 'Z' l
  if l = [] ∧ 1 ≤ y ∧ 1 ≤ mo ∧ mo ≤ 12 ∧ 1 ≤ d ∧ d ≤ daysInMonth y mo
      ∧ hh ≤ 23 ∧ mi ≤ 59 ∧ ss ≤ 59 then
    some ⟨y, mo, d⟩
  else none

/-- `ghReleaseDownloader.__format__date` (source lines 63-74): `None` and the
empty string are falsy, hence return `None`; otherwise
`datetime.strptime(str(date), '%Y-%m-%dT%H:%M:%SZ').date()`, which truncates
the time of day and raises `ValueError` on a malformed string. -/
def format_date (date : Option String) : Except PyError (Option Date) :=
  match date with
  | none => .ok none
  | some s =>
    if s = "" then .ok none
    else
      match parseTimestamp s with
      | some d => .ok (some d)
      | none => .error .valueError

/-- The record construction performed for each element `d` of the response
array (source lines 105-113): every field is `d.get(key, None)`, with the
two date fields passed through `__format__date`, whose `ValueError` on a
malformed timestamp propagates out of the loop. -/
def buildRecord (d : RawRelease) : Except PyError ReleaseRecord :=
  match format_date d.created_at with
  | .error e => .error e
  | .ok c =>
    match format_date d.published_at with
    | .error e => .error e
    | .ok p =>
      .ok { id := d.id.get, name := d.name, tag_name := d.tag_name,
            created_at := c, published_at := p,
            tarball_url := d.tarball_url, zipball_url := d.zipball_url }

/-- The `for d in data` loop of `listReleases` (source lines 104-113):
records are built in response order; the first date-parsing error aborts the
whole listing call. -/
def buildRecords : List RawRelease → Except PyError (List ReleaseRecord)
  | [] => .ok []
  | d :: rest =>
    match buildRecord d with
    | .error e => .error e
    | .ok r =>
      match buildRecords rest with
      | .error e => .error e
      | .ok rs => .ok (r :: rs)

/-- The value of the `self.releases` attribute: the initial plain Python
list `[]` set by `__init__`, or the tabular frame `dt.Frame(releases)`
stored by the first successful `listReleases` call. -/
inductive Snapshot where
  | initList
  | frame (rows : List ReleaseRecord)
deriving Repr, DecidableEq

/-- Truthiness of `self.releases` in the `if not self.releases:` test
(source line 91).  The initial `[]` is falsy.  A frame holding at least one
release is truthy: the spec's assumed tabular-library semantics ("Caches the
table in memory so a second listing call is a pure read" — every candidate
truthiness convention for a seven-column, non-empty frame agrees).  The
truth value of a frame built from an empty response is NOT determined by the
source or the spec (the spec calls that case "ambiguous in the original
design"), so it is kept as the explicit parameter `emptyFrameTruthy`. -/
def snapshotTruthy (emptyFrameTruthy : Bool) : Snapshot → Bool
  | .initList => false
  | .frame rows => if rows.isEmpty then emptyFrameTruthy else true

/-- Python `dict` assignment `d[k] = v`: replace the value of an existing
key in place, otherwise append the new pair (insertion order preserved). -/
def dictSet (d : List (String × String)) (k v : String) : List (String × String) :=
  if d.any (fun p => p.1 == k) then
    d.map (fun p => if p.1 == k then (k, v) else p)
  else d ++ [(k, v)]

/-- One HTTP request as handed to `requests.get`: the URL, the `headers=`
dict, the `params=` query-parameter dict (never supplied by this code, hence
always empty), and the `stream=` flag. -/
structure Request where
  url : String
  headers : List (String × String)
  params : List (String × String)
  stream : Bool
deriving Repr, DecidableEq

/-- The attributes of a `ghReleaseDownloader` instance after `__init__` /
`__build__release__url__`. -/
structure ghReleaseDownloader where
  releases : Snapshot
  gh_host : String
  gh_owner : Option String
  gh_repo : Option String
  gh_endpoint_release : String
  gh_default_header : List (String × String)
deriving Repr, DecidableEq

/-- Python `str()` of an optional string, as used by `'{}'.format`: `None`
prints as the literal `"None"`. -/
def pyStrOpt : Option String → String
  | none => "None"
  | some s => s

/-- `ghReleaseDownloader.__init__` (source lines 35-42) followed by
`__build__release__url__` (lines 44-52): empty release list, fixed host,
endpoint URL formatted from owner and repo, and the default `Accept`
header dict. -/
def ghInit (owner repo : Option String) : ghReleaseDownloader :=
  { releases := .initList
    gh_host := "https://api.github.com"
    gh_owner := owner
    gh_repo := repo
    gh_endpoint_release :=
      "https://api.github.com" ++ "/repos/" ++ pyStrOpt owner ++ "/"
        ++ pyStrOpt repo ++ "/releases"
    gh_default_header := [("Accept", "application/vnd.github.v3+json")] }

/-- Outcome of the listing `requests.get` call, supplied as an oracle:
either the transport raises (network failure), or a response arrives with a
status code and a JSON-array body (`resp.json()` is only evaluated on the
non-error path, so the body is modelled directly as the parsed array). -/
inductive ListingOutcome where
  | netFail
  | response (status : Nat) (body : List RawRelease)
deriving Repr, DecidableEq

/-- Result of one `listReleases` call: the state of the instance afterwards
(attribute mutations included), the HTTP requests attempted, and the
normal/raising outcome. -/
structure ListResult where
  state : ghReleaseDownloader
  requests : List Request
  result : Except PyError Unit
deriving Repr

/-- `ghReleaseDownloader.listReleases` (source lines 77-118).  If
`self.releases` is falsy: `headers = self.gh_default_header` ALIASES the
instance's dict, so the `per_page`/`page` assignments (guarded by Python
truthiness of the arguments, i.e. skipped for 0) mutate
`self.gh_default_header` permanently; then one `requests.get` with those
headers and no query parameters; `raise_for_status` raises `HTTPError`
exactly for 4xx/5xx statuses, re-raised as `SystemError`; a network failure
propagates `ConnectionError` uncaught; otherwise the records are built and
before `self.releases = dt.Frame(releases)` is stored, the release-count
print (line 114) evaluates `len([d['id'] for d in data])`, whose `d['id']`
subscript raises `KeyError` — uncaught — as soon as any response object
lacks the `id` key, so no snapshot is stored for such a body.  If
`self.releases` is truthy nothing but the final `__print__releases()` runs
(output to stdout is not modelled; note that for a zero-column frame that
print's column selection is itself an external-library edge case). -/
def listReleases (self : ghReleaseDownloader) (emptyFrameTruthy : Bool)
    (outcome : ListingOutcome) (per_page page : Int) : ListResult :=
  if snapshotTruthy emptyFrameTruthy self.releases then
    { state := self, requests := [], result := .ok () }
  else
    let headers := self.gh_default_header
    let headers := if per_page ≠ 0 then dictSet headers "per_page" (toString per_page) else headers
    let headers := if page ≠ 0 then dictSet headers "page" (toString page) else headers
    let self := { self with gh_default_header := headers }
    let req : Request :=
      { url := self.gh_endpoint_release, headers := headers, params := [], stream := false }
    match outcome with
    | .netFail =>
      { state := self, requests := [req], result := .error .connectionError }
    | .response status body =>
      if 400 ≤ status ∧ status < 600 then
        { state := self, requests := [req], result := .error (.systemError status) }
      else
        match buildRecords body with
        | .error e => { state := self, requests := [req], result := .error e }
        | .ok recs =>
          if body.any (fun d => d.id.isAbsent) then
            { state := self, requests := [req], result := .error .keyError }
          else
            { state := { self with releases := .frame recs },
              requests := [req], result := .ok () }

/-- `os.path.abspath(outDir)` (source line 130).  Resolution against the
process working directory lies outside the embedding; the model treats the
path as already absolute, which is faithful up to the unmodelled prefix and
unused by every claim. -/
def os_path_abspath (p : String) : String := p

/-- Outcome of the archive `requests.get(..., stream=True)` call, supplied
as an oracle: either the transport raises (network failure), or a response
arrives with a status code and a body that either is (`extractOk = true`)
or is not a readable gzip-compressed tar stream.  A non-gzip body (the
typical payload of an error response) makes `tarfile.open(mode='r|gz')`
raise a `ReadError` when it eagerly reads the gzip magic bytes. -/
inductive DownloadOutcome where
  | netFail
  | response (status : Nat) (extractOk : Bool)
deriving Repr, DecidableEq

/-- Observable steps of one `downloadRelease` call, in execution order:
the HTTP GET handed to the transport, the extraction attempt against the
response stream (`tarfile.open` + `extractall` into the target directory),
and the `resp.raise_for_status()` status check. -/
inductive DlEvent where
  | httpGet (req : Request)
  | extractAttempt (dir : String)
  | statusCheck (status : Nat)
deriving Repr, DecidableEq

/-- Result of one `downloadRelease` call: state afterwards (the method never
assigns any attribute, so it always equals the input state), the event
trace, and the normal/raising outcome. -/
structure DlResult where
  state : ghReleaseDownloader
  events : List DlEvent
  result : Except PyError Unit
deriving Repr

/-- Tag resolution (source lines 132-134): `release = tagName`; if it equals
the literal `"latest"` it is replaced by
`self.releases[0, ['tag_name']].to_dict()['tag_name'][0]`, the `tag_name`
of snapshot row 0 in API order (which may itself be `None`).  On the
`"latest"` path, row selection on the initial plain list `[]` raises a
`TypeError`, and row 0 of a frame with no rows is rejected by the tabular
library. -/
def resolveTag (snap : Snapshot) (tagName : String) : Except PyError (Option String) :=
  if tagName = "latest" then
    match snap with
    | .initList => .error .typeError
    | .frame [] => .error .emptyFrameRowError
    | .frame (r :: _) => .ok r.tag_name
  else .ok (some tagName)

/-- The lookup `self.releases[f.tag_name == release, :].to_dict()['tarball_url'][0]`
(source line 136): filter the snapshot rows on `tag_name` equality (the
tabular library matches `None` against missing values), then take element 0
of the resulting column list — an `IndexError` when no row matched,
otherwise the first matching row's `tarball_url`.  On the initial plain
list `[]`, frame-style indexing raises a `TypeError`. -/
def lookupTarball (snap : Snapshot) (release : Option String) :
    Except PyError (Option String) :=
  match snap with
  | .initList => .error .typeError
  | .frame rows =>
    match rows.filter (fun r => r.tag_name == release) with
    | [] => .error .indexError
    | r :: _ => .ok r.tarball_url

/-- The body of `downloadRelease` after tag resolution and URL lookup
(source lines 137-145): `requests.get(url, headers=self.gh_default_header,
stream=True)` — `None` as URL raises `MissingSchema` before any network
traffic, a network failure raises `ConnectionError` uncaught; then
`tarfile.open(fileobj=resp.raw, mode='r|gz')` and `extractall` are run
against the stream, raising `ReadError` (uncaught, since the `except`
clause only catches `HTTPError`) when the body is not gzip data; only after
extraction does `resp.raise_for_status()` run, whose `HTTPError` on a
4xx/5xx status is re-raised as `SystemError`. -/
def dlFetchAndExtract (self : ghReleaseDownloader) (outcome : DownloadOutcome)
    (dir : String) (url : Option String) : DlResult :=
  match url with
  | none => { state := self, events := [], result := .error .missingSchema }
  | some u =>
    let req : Request :=
      { url := u, headers := self.gh_default_header, params := [], stream := true }
    match outcome with
    | .netFail =>
      { state := self, events := [.httpGet req], result := .error .connectionError }
    | .response status extractOk =>
      if extractOk then
        if 400 ≤ status ∧ status < 600 then
          { state := self,
            events := [.httpGet req, .extractAttempt dir, .statusCheck status],
            result := .error (.systemError status) }
        else
          { state := self,
            events := [.httpGet req, .extractAttempt dir, .statusCheck status],
            result := .ok () }
      else
        { state := self, events := [.httpGet req, .extractAttempt dir],
          result := .error .tarReadError }

/-- `ghReleaseDownloader.downloadRelease` (source lines 121-145): absolute
target directory, tag resolution, tarball-URL lookup, then the streaming
download / extraction / status-check sequence. -/
def downloadRelease (self : ghReleaseDownloader) (outcome : DownloadOutcome)
    (outDir tagName : String) : DlResult :=
  let dir := os_path_abspath outDir
  match resolveTag self.releases tagName with
  | .error e => { state := self, events := [], result := .error e }
  | .ok release =>
    match lookupTarball self.releases release with
    | .error e => { state := self, events := [], result := .error e }
    | .ok url => dlFetchAndExtract self outcome dir url

/-- Whether an error is the spec's "TransportError", i.e. the
`SystemError` the source raises around a caught `HTTPError`. -/
def isTransportError : PyError → Bool
  | .systemError _ => true
  | _ => false

/-- Scan of an event trace: `true` iff no `statusCheck` occurs before the
first `extractAttempt` — i.e. whenever the HTTP status is checked, an
extraction attempt against the response stream has already happened. -/
def statusCheckAfterExtract : List DlEvent → Bool
  | [] => true
  | DlEvent.statusCheck _ :: _ => false
  | DlEvent.extractAttempt _ :: _ => true
  | DlEvent.httpGet _ :: rest => statusCheckAfterExtract rest

/-- The two-digit zero-padded decimal rendering of `n < 100`. -/
def pad2 (n : Nat) : List Char :=
  [Char.ofNat (48 + n / 10), Char.ofNat (48 + n % 10)]

/-- The four-digit zero-padded decimal rendering of `n < 10000`. -/
def pad4 (n : Nat) : List Char := pad2 (n / 100) ++ pad2 (n % 100)

/-- The canonical zero-padded ISO-8601 UTC timestamp
`YYYY-MM-DDTHH:MM:SSZ` built from its six fields, the form the GitHub API
produces for `created_at` / `published_at`. -/
def tsRender (y mo d hh mi ss : Nat) : String :=
  String.mk (pad4 y ++ '-' :: (pad2 mo ++ '-' :: (pad2 d ++ 'T' ::
    (pad2 hh ++ ':' :: (pad2 mi ++ ':' :: (pad2 ss ++ ['Z']))))))

/-- Validity of the six timestamp fields: a real calendar date (year within
`datetime`'s four-digit range, day within the month) and a real time of
day. -/
abbrev ValidTs (y mo d hh mi ss : Nat) : Prop :=
  1 ≤ y ∧ y ≤ 9999 ∧ 1 ≤ mo ∧ mo ≤ 12 ∧ 1 ≤ d ∧ d ≤ daysInMonth y mo
    ∧ hh ≤ 23 ∧ mi ≤ 59 ∧ ss ≤ 59

/-- Tarball URL of the `v1.0.0` fixture release. -/
def tarA : String := "https://api.github.com/repos/o/r/tarball/v1.0.0"

/-- Tarball URL of the `v0.9.0` fixture release. -/
def tarB : String := "https://api.github.com/repos/o/r/tarball/v0.9.0"

/-- Tarball URL of the duplicate-tag fixture release. -/
def tarC : String := "https://api.github.com/repos/o/r/tarball/v1.0.0-dup"

/-- Fixture: a fully populated release object from the listing response. -/
def rawA : RawRelease :=
  { id := JsonField.val 1, name := some "First release", tag_name := some "v1.0.0",
    created_at := some "2021-09-10T14:23:00Z",
    published_at := some "2021-09-11T08:00:00Z",
    tarball_url := some tarA,
    zipball_url := some "https://api.github.com/repos/o/r/zipball/v1.0.0" }

/-- Fixture: a release object with several fields missing (the `id` key
absent, as distinct from null) and an empty `published_at`. -/
def rawB : RawRelease :=
  { id := JsonField.absent, name := none, tag_name := some "v0.9.0",
    created_at := none, published_at := some "",
    tarball_url := some tarB, zipball_url := none }

/-- Fixture: the snapshot record `listReleases` builds from `rawA`. -/
def recA : ReleaseRecord :=
  { id := some 1, name := some "First release", tag_name := some "v1.0.0",
    created_at := some ⟨2021, 9, 10⟩, published_at := some ⟨2021, 9, 11⟩,
    tarball_url := some tarA,
    zipball_url := some "https://api.github.com/repos/o/r/zipball/v1.0.0" }

/-- Fixture: the snapshot record `listReleases` builds from `rawB`. -/
def recB : ReleaseRecord :=
  { id := none, name := none, tag_name := some "v0.9.0",
    created_at := none, published_at := none,
    tarball_url := some tarB, zipball_url := none }

/-- Fixture: a release object whose `id` key is present but null and whose
other optional fields are missing or empty. -/
def rawD : RawRelease :=
  { id := JsonField.null, name := none, tag_name := some "v0.8.0",
    created_at := none, published_at := some "",
    tarball_url := none, zipball_url := none }

/-- Fixture: the snapshot record `listReleases` builds from `rawD`. -/
def recD : ReleaseRecord :=
  { id := none, name := none, tag_name := some "v0.8.0",
    created_at := none, published_at := none,
    tarball_url := none, zipball_url := none }

/-- Fixture: a second record carrying the same `tag_name` as `recA` but a
different tarball URL. -/
def recC : ReleaseRecord :=
  { id := some 3, name := some "Duplicate tag", tag_name := some "v1.0.0",
    created_at := none, published_at := none,
    tarball_url := some tarC, zipball_url := none }

/-- Fixture: a client whose snapshot is populated with `recA` and `recB`. -/
def stAB : ghReleaseDownloader :=
  { ghInit (some "o") (some "r") with releases := Snapshot.frame [recA, recB] }

/-- Fixture: a client whose snapshot holds two records sharing tag
`v1.0.0`. -/
def stDup : ghReleaseDownloader :=
  { ghInit (some "o") (some "r") with releases := Snapshot.frame [recA, recC] }

lemma digit_char_spec (k : Nat) (h : k ≤ 9) :
    (Char.ofNat (48 + k)).isDigit = true ∧ digitVal (Char.ofNat (48 + k)) = k := by
  interval_cases k <;> exact ⟨by decide, by decide⟩

lemma readDigit_cons (k : Nat) (h : k ≤ 9) (rest : List Char) :
    readDigit (Char.ofNat (48 + k) :: rest) = some (k, rest) := by
  have hd := digit_char_spec k h
  simp [readDigit, hd.1, hd.2]

lemma read2_pad2 (n : Nat) (h : n ≤ 99) (rest : List Char) :
    read2 (pad2 n ++ rest) = some (n, rest) := by
  have h1 : n / 10 ≤ 9 := by omega
  have h2 : n % 10 ≤ 9 := by omega
  simp only [pad2, List.cons_append, List.nil_append, read2,
    readDigit_cons _ h1, readDigit_cons _ h2]
  have : n / 10 * 10 + n % 10 = n := by omega
  rw [this]

lemma read4_pad4 (n : Nat) (h : n ≤ 9999) (rest : List Char) :
    read4 (pad4 n ++ rest) = some (n, rest) := by
  have h1 : n / 100 ≤ 99 := by omega
  have h2 : n % 100 ≤ 99 := by omega
  have e : pad4 n ++ rest = pad2 (n / 100) ++ (pad2 (n % 100) ++ rest) := by
    simp [pad4]
  rw [e]
  simp only [read4, read2_pad2 _ h1, read2_pad2 _ h2]
  have : n / 100 * 100 + n % 100 = n := by omega
  rw [this]

lemma expectChar_cons (c : Char) (rest : List Char) :
    expectChar c (c :: rest) = some rest := by
  simp [expectChar]

lemma daysInMonth_le (y m : Nat) : daysInMonth y m ≤ 31 := by
  unfold daysInMonth
  split
  · split <;> omega
  · split <;> omega

lemma ts_roundtrip (y mo d hh mi ss : Nat) (h : ValidTs y mo d hh mi ss) :
    parseTimestamp (tsRender y mo d hh mi ss) = some ⟨y, mo, d⟩ := by
  obtain ⟨h1, h2, h3, h4, h5, h6, h7, h8, h9⟩ := h
  have hd : d ≤ 99 := by have := daysInMonth_le y mo; omega
  have hl : (tsRender y mo d hh mi ss).toList
      = pad4 y ++ '-' :: (pad2 mo ++ '-' :: (pad2 d ++ 'T' ::
          (pad2 hh ++ ':' :: (pad2 mi ++ ':' :: (pad2 ss ++ ['Z']))))) := rfl
  rw [parseTimestamp, hl, read4_pad4 y (by omega)]
  simp only [Option.bind_eq_bind, Option.some_bind, expectChar_cons,
    read2_pad2 mo (by omega), read2_pad2 d hd,
    read2_pad2 hh (by omega), read2_pad2 mi (by omega),
    read2_pad2 ss (by omega)]
  rw [if_pos]
  exact ⟨trivial, h1, h3, h4, h5, h6, h7, h8, h9⟩


lemma buildRecord_fields (raw : RawRelease) (rec : ReleaseRecord)
    (h : buildRecord raw = Except.ok rec) :
    rec.id = raw.id.get ∧ rec.name = raw.name ∧ rec.tag_name = raw.tag_name ∧
    rec.tarball_url = raw.tarball_url ∧ rec.zipball_url = raw.zipball_url ∧
    format_date raw.created_at = Except.ok rec.created_at ∧
    format_date raw.published_at = Except.ok rec.published_at := by
  unfold buildRecord at h
  cases hc : format_date raw.created_at with
  | error e => rw [hc] at h; simp at h
  | ok c =>
    rw [hc] at h
    cases hp : format_date raw.published_at with
    | error e => rw [hp] at h; simp at h
    | ok p =>
      rw [hp] at h
      simp only [Except.ok.injEq] at h
      subst h
      exact ⟨rfl, rfl, rfl, rfl, rfl, rfl, rfl⟩

lemma buildRecords_length {l : List RawRelease} {r : List ReleaseRecord}
    (h : buildRecords l = Except.ok r) : r.length = l.length := by
  induction l generalizing r with
  | nil =>
    simp only [buildRecords, Except.ok.injEq] at h
    subst h; rfl
  | cons d rest ih =>
    unfold buildRecords at h
    cases hd : buildRecord d with
    | error e => rw [hd] at h; simp at h
    | ok rec =>
      rw [hd] at h
      cases hr : buildRecords rest with
      | error e => rw [hr] at h; simp at h
      | ok recs =>
        rw [hr] at h
        simp only [Except.ok.injEq] at h
        subst h
        simp [ih hr]

lemma buildRecords_get {l : List RawRelease} {r : List ReleaseRecord}
    (h : buildRecords l = Except.ok r) :
    ∀ i (hi : i < l.length) (hr : i < r.length),
      buildRecord (l.get ⟨i, hi⟩) = Except.ok (r.get ⟨i, hr⟩) := by
  induction l generalizing r with
  | nil => intro i hi _; simp at hi
  | cons d rest ih =>
    unfold buildRecords at h
    cases hd : buildRecord d with
    | error e => rw [hd] at h; simp at h
    | ok rec =>
      rw [hd] at h
      cases hrs : buildRecords rest with
      | error e => rw [hrs] at h; simp at h
      | ok recs =>
        rw [hrs] at h
        simp only [Except.ok.injEq] at h
        subst h
        intro i hi hr
        cases i with
        | zero => simpa using hd
        | succ n =>
          simp only [List.get_cons_succ]
          exact ih hrs n (by simpa using hi) (by simpa using hr)

lemma listReleases_one_request_of_init (self : ghReleaseDownloader) (eft : Bool)
    (outcome : ListingOutcome) (per_page page : Int)
    (h : self.releases = Snapshot.initList) :
    (listReleases self eft outcome per_page page).requests.length = 1 := by
  have ht : ¬ snapshotTruthy eft self.releases = true := by
    rw [h]; simp [snapshotTruthy]
  unfold listReleases
  rw [if_neg ht]
  cases outcome with
  | netFail => rfl
  | response status body =>
    by_cases hs : 400 ≤ status ∧ status < 600
    · simp only [if_pos hs]
      rfl
    · simp only [if_neg hs]
      cases hb : buildRecords body with
      | error e => rfl
      | ok recs =>
        dsimp only
        split <;> rfl

lemma dlFetchAndExtract_headers (self : ghReleaseDownloader)
    (outcome : DownloadOutcome) (dir : String) (url : Option String) (req : Request)
    (h : DlEvent.httpGet req ∈ (dlFetchAndExtract self outcome dir url).events) :
    req.headers = self.gh_default_header := by
  unfold dlFetchAndExtract at h
  cases url with
  | none => simp at h
  | some u =>
    cases outcome with
    | netFail =>
      simp only [List.mem_singleton, DlEvent.httpGet.injEq] at h
      rw [h]
    | response status extractOk =>
      cases extractOk with
      | false =>
        simp only [Bool.false_eq_true, if_false, List.mem_cons,
          List.mem_singleton, List.not_mem_nil, or_false] at h
        rcases h with h | h
        · rw [DlEvent.httpGet.injEq] at h; rw [h]
        · simp at h
      | true =>
        simp only [if_true] at h
        split at h <;>
        · simp only [List.mem_cons, List.not_mem_nil, or_false] at h
          rcases h with h | h | h
          · rw [DlEvent.httpGet.injEq] at h; rw [h]
          · simp at h
          · simp at h

lemma downloadRelease_headers (self : ghReleaseDownloader)
    (outcome : DownloadOutcome) (outDir tagName : String) (req : Request)
    (h : DlEvent.httpGet req ∈ (downloadRelease self outcome outDir tagName).events) :
    req.headers = self.gh_default_header := by
  unfold downloadRelease at h
  cases hr : resolveTag self.releases tagName with
  | error e => rw [hr] at h; dsimp only at h; simp at h
  | ok release =>
    rw [hr] at h
    dsimp only at h
    cases hl : lookupTarball self.releases release with
    | error e => rw [hl] at h; dsimp only at h; simp at h
    | ok url =>
      rw [hl] at h
      dsimp only at h
      exact dlFetchAndExtract_headers self outcome (os_path_abspath outDir) url req h

lemma dlFetchAndExtract_order (self : ghReleaseDownloader)
    (outcome : DownloadOutcome) (dir : String) (url : Option String) :
    statusCheckAfterExtract (dlFetchAndExtract self outcome dir url).events = true := by
  unfold dlFetchAndExtract
  cases url with
  | none => rfl
  | some u =>
    cases outcome with
    | netFail => rfl
    | response status extractOk =>
      cases extractOk with
      | false => rfl
      | true =>
        by_cases hs : 400 ≤ status ∧ status < 600
        · simp [hs, statusCheckAfterExtract]
        · simp [hs, statusCheckAfterExtract]

/-- C1: once the snapshot of a client instance is populated and non-empty,
every further `listReleases` call — whatever `per_page`/`page` values the
caller passes, whatever the network would have answered, and whatever truth
value the tabular library gives an empty frame — issues no HTTP request and
leaves the whole instance state, snapshot included, unchanged; so the
snapshot is populated at most once and never refetched or mutated. -/
theorem c1_populated_snapshot_cache_hit (self : ghReleaseDownloader)
    (emptyFrameTruthy : Bool) (outcome : ListingOutcome) (per_page page : Int)
    (rows : List ReleaseRecord)
    (hrows : self.releases = Snapshot.frame rows) (hne : rows ≠ []) :
    (listReleases self emptyFrameTruthy outcome per_page page).state = self ∧
    (listReleases self emptyFrameTruthy outcome per_page page).requests = [] := by
  have ht : snapshotTruthy emptyFrameTruthy self.releases = true := by
    rw [hrows]
    cases rows with
    | nil => exact absurd rfl hne
    | cons r rest => rfl
  unfold listReleases
  rw [if_pos ht]
  exact ⟨rfl, rfl⟩

/-- C1 witness: a client whose snapshot holds two records answers a second
`listReleases(per_page=5, page=2)` from the cache: no request, state
untouched. -/
theorem c1_witness :
    (listReleases stAB false (ListingOutcome.response 200 []) 5 2).state = stAB ∧
    (listReleases stAB false (ListingOutcome.response 200 []) 5 2).requests = [] :=
  c1_populated_snapshot_cache_hit stAB false (ListingOutcome.response 200 []) 5 2
    [recA, recB] rfl (List.cons_ne_nil recA [recB])

/-- C2: on a populated snapshot, `downloadRelease` with the literal tag
`"latest"` resolves to the `tag_name` of the record at index 0 — whatever
the records' `created_at`/`published_at` dates are, since the first record
is arbitrary here — and any other tag string is used verbatim; the rest of
the call then proceeds on the resolved tag exactly as it would on a literal
one. -/
theorem c2_latest_is_first_record (r : ReleaseRecord) (rest : List ReleaseRecord)
    (t : String) (self : ghReleaseDownloader) (outcome : DownloadOutcome)
    (outDir : String) (hs : self.releases = Snapshot.frame (r :: rest)) :
    resolveTag (Snapshot.frame (r :: rest)) "latest" = Except.ok r.tag_name ∧
    (t ≠ "latest" → resolveTag (Snapshot.frame (r :: rest)) t = Except.ok (some t)) ∧
    downloadRelease self outcome outDir "latest" =
      (match lookupTarball self.releases r.tag_name with
       | Except.error e => { state := self, events := [], result := Except.error e }
       | Except.ok url => dlFetchAndExtract self outcome (os_path_abspath outDir) url) := by
  refine ⟨rfl, fun ht => by simp [resolveTag, ht], ?_⟩
  unfold downloadRelease
  have hres : resolveTag self.releases "latest" = Except.ok r.tag_name := by
    rw [hs]; rfl
  rw [hres]

/-- C2 witness: on the two-record fixture snapshot, `"latest"` resolves to
the first record's tag and `"v0.9.0"` is used verbatim. -/
theorem c2_witness :
    resolveTag (Snapshot.frame [recA, recB]) "latest" = Except.ok recA.tag_name ∧
    resolveTag (Snapshot.frame [recA, recB]) "v0.9.0" = Except.ok (some "v0.9.0") :=
  ⟨(c2_latest_is_first_record recA [recB] "v0.9.0" stAB DownloadOutcome.netFail
      "out" rfl).1,
   (c2_latest_is_first_record recA [recB] "v0.9.0" stAB DownloadOutcome.netFail
      "out" rfl).2.1 (by decide)⟩

/-- C3: a record's date fields are the date-only truncation of the
corresponding canonical ISO-8601 UTC timestamp (any valid time of day is
discarded), and a missing (`None`) or empty timestamp yields an absent
value rather than an error; the snapshot records produced by `buildRecord`
carry exactly the `__format__date` images of the raw fields. -/
theorem c3_date_truncation (y mo d hh mi ss : Nat) (h : ValidTs y mo d hh mi ss) :
    format_date (some (tsRender y mo d hh mi ss)) = Except.ok (some ⟨y, mo, d⟩) ∧
    format_date none = Except.ok none ∧
    format_date (some "") = Except.ok none ∧
    (∀ raw rec, buildRecord raw = Except.ok rec →
      format_date raw.created_at = Except.ok rec.created_at ∧
      format_date raw.published_at = Except.ok rec.published_at) := by
  refine ⟨?_, rfl, rfl, fun raw rec hb =>
    ⟨(buildRecord_fields raw rec hb).2.2.2.2.2.1,
     (buildRecord_fields raw rec hb).2.2.2.2.2.2⟩⟩
  have hne : tsRender y mo d hh mi ss ≠ "" := by
    intro he
    have h2 := congrArg String.toList he
    simp [tsRender, pad4, pad2] at h2
  unfold format_date
  dsimp only
  rw [if_neg hne, ts_roundtrip y mo d hh mi ss h]

/-- C3 witness: `"2021-09-10T14:23:00Z"` (as rendered from its fields) maps
to the date 2021-09-10; missing and empty timestamps map to an absent
value. -/
theorem c3_witness :
    format_date (some (tsRender 2021 9 10 14 23 0)) = Except.ok (some ⟨2021, 9, 10⟩) ∧
    format_date none = Except.ok none ∧
    format_date (some "") = Except.ok none :=
  ⟨(c3_date_truncation 2021 9 10 14 23 0 (by decide)).1,
   (c3_date_truncation 2021 9 10 14 23 0 (by decide)).2.1,
   (c3_date_truncation 2021 9 10 14 23 0 (by decide)).2.2.1⟩

/-- C4 counterexample: the claim promises an absent marker substituted "for
every field including id", but a 200 response containing an object without
the `id` key (here `rawB`) makes `listReleases` raise the uncaught
`KeyError` of the release-count print's `d['id']` subscript (source line
114) and store no snapshot at all. -/
theorem c4_counterexample :
    (listReleases (ghInit (some "o") (some "r")) false
        (ListingOutcome.response 200 [rawA, rawB]) 30 1).result
      = Except.error PyError.keyError ∧
    (listReleases (ghInit (some "o") (some "r")) false
        (ListingOutcome.response 200 [rawA, rawB]) 30 1).state.releases
      = Snapshot.initList :=
  ⟨rfl, rfl⟩

/-- C4 (amended): a first `listReleases` call answered with a JSON array of
N release objects whose timestamps all parse stores a snapshot of exactly N
records — the i-th built from the i-th object, with `None` substituted for
each missing or null source field — provided every object carries the `id`
key (a null `id` is fine and becomes `None`); if any object lacks the `id`
key, the `d['id']` subscript of the release-count print raises an uncaught
`KeyError` before the snapshot assignment, and the snapshot stays empty. -/
theorem c4_snapshot_has_all_records (self : ghReleaseDownloader)
    (emptyFrameTruthy : Bool) (per_page page : Int) (status : Nat)
    (body : List RawRelease) (recs : List ReleaseRecord)
    (hinit : self.releases = Snapshot.initList)
    (hstatus : ¬ (400 ≤ status ∧ status < 600))
    (hbuild : buildRecords body = Except.ok recs) :
    (body.any (fun d => d.id.isAbsent) = false →
      (listReleases self emptyFrameTruthy (ListingOutcome.response status body)
          per_page page).state.releases = Snapshot.frame recs ∧
      recs.length = body.length ∧
      (∀ i (hi : i < body.length) (hr : i < recs.length),
        buildRecord (body.get ⟨i, hi⟩) = Except.ok (recs.get ⟨i, hr⟩)) ∧
      (∀ raw rec, buildRecord raw = Except.ok rec →
        rec.id = raw.id.get ∧ rec.name = raw.name ∧ rec.tag_name = raw.tag_name ∧
        rec.tarball_url = raw.tarball_url ∧ rec.zipball_url = raw.zipball_url)) ∧
    (body.any (fun d => d.id.isAbsent) = true →
      (listReleases self emptyFrameTruthy (ListingOutcome.response status body)
          per_page page).result = Except.error PyError.keyError ∧
      (listReleases self emptyFrameTruthy (ListingOutcome.response status body)
          per_page page).state.releases = Snapshot.initList) := by
  have ht : ¬ snapshotTruthy emptyFrameTruthy self.releases = true := by
    rw [hinit]; simp [snapshotTruthy]
  constructor
  · intro hid
    refine ⟨?_, buildRecords_length hbuild, buildRecords_get hbuild,
      fun raw rec hb => ?_⟩
    · unfold listReleases
      rw [if_neg ht]
      simp [hstatus, hbuild, hid]
    · have hf := buildRecord_fields raw rec hb
      exact ⟨hf.1, hf.2.1, hf.2.2.1, hf.2.2.2.1, hf.2.2.2.2.1⟩
  · intro hid
    unfold listReleases
    rw [if_neg ht]
    simp [hstatus, hbuild, hid, hinit]

/-- C4 witness: a response of two objects with every `id` key present (one
null) yields the two expected records; a response containing an object
without the `id` key raises `KeyError` and stores nothing. -/
theorem c4_witness :
    ((listReleases (ghInit (some "o") (some "r")) false
        (ListingOutcome.response 200 [rawA, rawD]) 30 1).state.releases
      = Snapshot.frame [recA, recD] ∧
     ([recA, recD] : List ReleaseRecord).length
      = ([rawA, rawD] : List RawRelease).length) ∧
    ((listReleases (ghInit (some "o") (some "r")) false
        (ListingOutcome.response 200 [rawA, rawB]) 30 1).result
      = Except.error PyError.keyError ∧
     (listReleases (ghInit (some "o") (some "r")) false
        (ListingOutcome.response 200 [rawA, rawB]) 30 1).state.releases
      = Snapshot.initList) :=
  ⟨⟨((c4_snapshot_has_all_records (ghInit (some "o") (some "r")) false 30 1 200
        [rawA, rawD] [recA, recD] rfl (by decide) rfl).1 (by decide)).1,
    ((c4_snapshot_has_all_records (ghInit (some "o") (some "r")) false 30 1 200
        [rawA, rawD] [recA, recD] rfl (by decide) rfl).1 (by decide)).2.1⟩,
   (c4_snapshot_has_all_records (ghInit (some "o") (some "r")) false 30 1 200
      [rawA, rawB] [recA, recB] rfl (by decide) rfl).2 (by decide)⟩

/-- C5 counterexample: the claim "network failure or non-2xx status →
TransportError" fails on the code.  On a network failure the fresh client's
`listReleases` lets the transport's own `ConnectionError` escape — the
`except` clause catches only `HTTPError`, so no `SystemError` (the spec's
TransportError) is raised; and a non-2xx status outside 4xx/5xx (e.g. 304)
raises nothing at all and even stores a snapshot, because
`raise_for_status` only fires on 4xx/5xx. -/
theorem c5_counterexample :
    (listReleases (ghInit (some "o") (some "r")) false ListingOutcome.netFail
        30 1).result = Except.error PyError.connectionError ∧
    isTransportError PyError.connectionError = false ∧
    (listReleases (ghInit (some "o") (some "r")) false
        (ListingOutcome.response 304 []) 30 1).result = Except.ok () ∧
    (listReleases (ghInit (some "o") (some "r")) false
        (ListingOutcome.response 304 []) 30 1).state.releases
      = Snapshot.frame [] :=
  ⟨rfl, rfl, rfl, rfl⟩

/-- C5 (amended): a listing request answered with a 4xx/5xx status raises
the wrapped TransportError (`SystemError` around the `HTTPError`) and
stores no partial snapshot; a network failure propagates the transport
library's own exception, unwrapped, and also stores no snapshot; in both
cases the snapshot is still the initial empty list, so a subsequent
`listReleases` call issues exactly one fresh network request. -/
theorem c5_listing_failure_leaves_snapshot_empty (self : ghReleaseDownloader)
    (emptyFrameTruthy : Bool) (per_page page : Int) (status : Nat)
    (body : List RawRelease) (hinit : self.releases = Snapshot.initList)
    (h4 : 400 ≤ status) (h6 : status < 600) :
    ((listReleases self emptyFrameTruthy (ListingOutcome.response status body)
        per_page page).result = Except.error (PyError.systemError status) ∧
     (listReleases self emptyFrameTruthy (ListingOutcome.response status body)
        per_page page).state.releases = Snapshot.initList) ∧
    ((listReleases self emptyFrameTruthy ListingOutcome.netFail per_page
        page).result = Except.error PyError.connectionError ∧
     (listReleases self emptyFrameTruthy ListingOutcome.netFail per_page
        page).state.releases = Snapshot.initList) ∧
    (∀ outcome2 pp2 pg2,
      (listReleases (listReleases self emptyFrameTruthy
          (ListingOutcome.response status body) per_page page).state
        emptyFrameTruthy outcome2 pp2 pg2).requests.length = 1) := by
  have ht : ¬ snapshotTruthy emptyFrameTruthy self.releases = true := by
    rw [hinit]; simp [snapshotTruthy]
  have hs : 400 ≤ status ∧ status < 600 := ⟨h4, h6⟩
  have herr : (listReleases self emptyFrameTruthy
      (ListingOutcome.response status body) per_page page).result
        = Except.error (PyError.systemError status) ∧
      (listReleases self emptyFrameTruthy (ListingOutcome.response status body)
        per_page page).state.releases = Snapshot.initList := by
    unfold listReleases
    rw [if_neg ht]
    simp [hs, hinit]
  refine ⟨herr, ?_, ?_⟩
  · unfold listReleases
    rw [if_neg ht]
    exact ⟨rfl, hinit⟩
  · intro outcome2 pp2 pg2
    exact listReleases_one_request_of_init _ _ _ _ _ herr.2

/-- C5 witness: concrete 404 run of the amended statement. -/
theorem c5_witness :
    (listReleases (ghInit (some "o") (some "r")) false
        (ListingOutcome.response 404 []) 30 1).result
      = Except.error (PyError.systemError 404) ∧
    (listReleases (ghInit (some "o") (some "r")) false
        (ListingOutcome.response 404 []) 30 1).state.releases
      = Snapshot.initList :=
  (c5_listing_failure_leaves_snapshot_empty (ghInit (some "o") (some "r"))
    false 30 1 404 [] rfl (by decide) (by decide)).1

/-- C6: for a populated snapshot and a verbatim tag, a lookup miss (no
record with that `tag_name`) makes `downloadRelease` fail with the
`IndexError` of `[0]` on the empty filtered column, before any HTTP request
is attempted; when one or more records match, the single chosen record is
the first match in snapshot order and its `tarball_url` becomes the URL of
the streaming GET. -/
theorem c6_lookup_miss_and_first_match (self : ghReleaseDownloader)
    (rows : List ReleaseRecord) (tag : String) (outcome : DownloadOutcome)
    (outDir : String) (hs : self.releases = Snapshot.frame rows)
    (ht : tag ≠ "latest") :
    ((rows.filter (fun rec => rec.tag_name == some tag)) = [] →
      (downloadRelease self outcome outDir tag).result
          = Except.error PyError.indexError ∧
      (downloadRelease self outcome outDir tag).events = []) ∧
    (∀ r rest u, rows.filter (fun rec => rec.tag_name == some tag) = r :: rest →
      r.tarball_url = some u →
      ∃ req, (downloadRelease self outcome outDir tag).events.head?
          = some (DlEvent.httpGet req) ∧ req.url = u ∧ req.stream = true) := by
  have hres : resolveTag self.releases tag = Except.ok (some tag) := by
    unfold resolveTag
    rw [if_neg ht]
  constructor
  · intro hmiss
    have hlook : lookupTarball self.releases (some tag)
        = Except.error PyError.indexError := by
      unfold lookupTarball
      rw [hs]
      dsimp only
      rw [hmiss]
    unfold downloadRelease
    rw [hres]
    dsimp only
    rw [hlook]
    exact ⟨rfl, rfl⟩
  · intro r rest u hfilter hurl
    have hlook : lookupTarball self.releases (some tag) = Except.ok (some u) := by
      unfold lookupTarball
      rw [hs]
      dsimp only
      rw [hfilter]
      dsimp only
      rw [hurl]
    unfold downloadRelease
    rw [hres]
    dsimp only
    rw [hlook]
    unfold dlFetchAndExtract
    cases outcome with
    | netFail =>
      exact ⟨{ url := u, headers := self.gh_default_header, params := [],
               stream := true }, rfl, rfl, rfl⟩
    | response status extractOk =>
      cases extractOk with
      | false =>
        exact ⟨{ url := u, headers := self.gh_default_header, params := [],
                 stream := true }, rfl, rfl, rfl⟩
      | true =>
        refine ⟨{ url := u, headers := self.gh_default_header, params := [],
                  stream := true }, ?_, rfl, rfl⟩
        by_cases hst : 400 ≤ status ∧ status < 600
        · simp [hst]
        · simp [hst]

/-- C6 witness: on the duplicate-tag fixture, tag `v9.9.9` is a lookup miss
failing with `IndexError` and no request; tag `v1.0.0` matches two records
and the request URL is the FIRST match's tarball (`tarA`, not `tarC`). -/
theorem c6_witness :
    (downloadRelease stDup DownloadOutcome.netFail "out" "v9.9.9").result
      = Except.error PyError.indexError ∧
    (∃ req, (downloadRelease stDup DownloadOutcome.netFail "out" "v1.0.0").events.head?
      = some (DlEvent.httpGet req) ∧ req.url = tarA ∧ req.stream = true) :=
  ⟨((c6_lookup_miss_and_first_match stDup [recA, recC] "v9.9.9"
      DownloadOutcome.netFail "out" rfl (by decide)).1 (by decide)).1,
   (c6_lookup_miss_and_first_match stDup [recA, recC] "v1.0.0"
      DownloadOutcome.netFail "out" rfl (by decide)).2 recA [recC] tarA
      (by decide) rfl⟩

/-- C7 counterexample: the claim "non-2xx archive response → TransportError"
fails on the code.  A 404 whose body is not a gzip stream (the normal shape
of an error payload) makes the extraction step raise `tarfile`'s
`ReadError`, which the `except HTTPError` clause does not catch, so the
TransportError wrapping is never reached; the trace confirms the status was
never checked. -/
theorem c7_counterexample :
    (downloadRelease stAB (DownloadOutcome.response 404 false) "out"
        "v1.0.0").result = Except.error PyError.tarReadError ∧
    isTransportError PyError.tarReadError = false ∧
    (downloadRelease stAB (DownloadOutcome.response 404 false) "out"
        "v1.0.0").events
      = [DlEvent.httpGet ({ url := tarA, headers := [("Accept", "application/vnd.github.v3+json")], params := [], stream := true } : Request),
         DlEvent.extractAttempt "out"] :=
  ⟨rfl, rfl, rfl⟩

/-- C7 (amended): in every execution of `downloadRelease`, whatever is
checked of the HTTP status happens only after the extraction attempt
against the (already consumed) response stream — no `statusCheck` event
ever precedes the `extractAttempt` event; and when the archive request was
actually issued, the body happened to extract as a gzip-tar stream, and the
status is 4xx/5xx, the call then raises the wrapped TransportError. -/
theorem c7_status_checked_only_after_extraction (self : ghReleaseDownloader)
    (outcome : DownloadOutcome) (outDir tag : String) (status : Nat) :
    statusCheckAfterExtract (downloadRelease self outcome outDir tag).events
      = true ∧
    (outcome = DownloadOutcome.response status true → 400 ≤ status →
      status < 600 →
      (∃ req, DlEvent.httpGet req ∈ (downloadRelease self outcome outDir tag).events) →
      (downloadRelease self outcome outDir tag).result
        = Except.error (PyError.systemError status)) := by
  unfold downloadRelease
  cases hr : resolveTag self.releases tag with
  | error e =>
    refine ⟨rfl, fun _ _ _ hreq => ?_⟩
    obtain ⟨req, hmem⟩ := hreq
    simp at hmem
  | ok release =>
    dsimp only
    cases hl : lookupTarball self.releases release with
    | error e =>
      refine ⟨rfl, fun _ _ _ hreq => ?_⟩
      obtain ⟨req, hmem⟩ := hreq
      simp at hmem
    | ok url =>
      dsimp only
      refine ⟨dlFetchAndExtract_order self outcome (os_path_abspath outDir) url, ?_⟩
      intro hout h4 h6 hreq
      subst hout
      cases url with
      | none =>
        obtain ⟨req, hmem⟩ := hreq
        simp [dlFetchAndExtract] at hmem
      | some u =>
        unfold dlFetchAndExtract
        simp only [if_true]
        rw [if_pos ⟨h4, h6⟩]

/-- C7 witness: a 500 response whose body does extract as gzip-tar reaches
the status check (after extraction) and raises the wrapped TransportError. -/
theorem c7_witness :
    (downloadRelease stAB (DownloadOutcome.response 500 true) "out"
        "v1.0.0").result = Except.error (PyError.systemError 500) ∧
    statusCheckAfterExtract (downloadRelease stAB
        (DownloadOutcome.response 500 true) "out" "v1.0.0").events = true :=
  ⟨(c7_status_checked_only_after_extraction stAB
      (DownloadOutcome.response 500 true) "out" "v1.0.0" 500).2 rfl
      (by decide) (by decide)
      ⟨({ url := tarA, headers := [("Accept", "application/vnd.github.v3+json")], params := [], stream := true } : Request), by decide⟩,
   (c7_status_checked_only_after_extraction stAB
      (DownloadOutcome.response 500 true) "out" "v1.0.0" 500).1⟩

/-- C8: the failing input `listReleases(per_page=50, page=2)` on a fresh
client.  The claim (and the code's own docstring, which points at the
remote API's `per_page`/`page` request parameters) says the values are
passed as request parameters of the GET; the code instead writes them into
the `headers` dict and issues the GET with an empty query-parameter set, so
the remote API never receives them as parameters. -/
theorem c8_pagination_sent_as_headers_not_params :
    (listReleases (ghInit (some "o") (some "r")) false
        (ListingOutcome.response 200 []) 50 2).requests
      = [({ url := "https://api.github.com/repos/o/r/releases", headers := [("Accept", "application/vnd.github.v3+json"), ("per_page", "50"), ("page", "2")], params := [], stream := false } : Request)] := by
  decide

lemma listReleases_header_after_fetch (self : ghReleaseDownloader)
    (eft : Bool) (outcome : ListingOutcome) (pp pg : Int)
    (h : self.releases = Snapshot.initList) (hpp : pp ≠ 0) (hpg : pg ≠ 0) :
    (listReleases self eft outcome pp pg).state.gh_default_header
      = dictSet (dictSet self.gh_default_header "per_page" (toString pp))
          "page" (toString pg) := by
  have ht : ¬ snapshotTruthy eft self.releases = true := by
    rw [h]; simp [snapshotTruthy]
  unfold listReleases
  rw [if_neg ht]
  dsimp only
  rw [if_pos hpp, if_pos hpg]
  cases outcome with
  | netFail => rfl
  | response status body =>
    dsimp only
    by_cases hs : 400 ≤ status ∧ status < 600
    · rw [if_pos hs]
    · rw [if_neg hs]
      cases hb : buildRecords body with
      | error e => rfl
      | ok recs =>
        dsimp only
        split <;> rfl

/-- C10: the first `listReleases` call on a fresh client aliases and
permanently mutates the instance's shared default-header dict, appending
`per_page` and `page` entries after `Accept`; every HTTP request
`downloadRelease` subsequently issues from that instance carries exactly
this three-entry header dict. -/
theorem c10_default_header_mutation (o r : Option String)
    (emptyFrameTruthy : Bool) (outcome : ListingOutcome) (per_page page : Int)
    (hpp : per_page ≠ 0) (hpg : page ≠ 0) :
    (listReleases (ghInit o r) emptyFrameTruthy outcome per_page
        page).state.gh_default_header
      = [("Accept", "application/vnd.github.v3+json"),
         ("per_page", toString per_page), ("page", toString page)] ∧
    (∀ outcome2 outDir tag req,
      DlEvent.httpGet req ∈ (downloadRelease
          (listReleases (ghInit o r) emptyFrameTruthy outcome per_page page).state
          outcome2 outDir tag).events →
      req.headers = [("Accept", "application/vnd.github.v3+json"),
         ("per_page", toString per_page), ("page", toString page)]) := by
  have hh := listReleases_header_after_fetch (ghInit o r) emptyFrameTruthy
    outcome per_page page rfl hpp hpg
  have e1 : (("Accept" : String) == "per_page") = false := by decide
  have e2 : (("Accept" : String) == "page") = false := by decide
  have e3 : (("per_page" : String) == "page") = false := by decide
  have hdict : dictSet (dictSet (ghInit o r).gh_default_header "per_page"
        (toString per_page)) "page" (toString page)
      = [("Accept", "application/vnd.github.v3+json"),
         ("per_page", toString per_page), ("page", toString page)] := by
    simp [dictSet, ghInit, e1, e2, e3]
  rw [hdict] at hh
  refine ⟨hh, fun outcome2 outDir tag req hmem => ?_⟩
  have hd := downloadRelease_headers _ outcome2 outDir tag req hmem
  rw [hh] at hd
  exact hd

/-- C10 witness: after `listReleases(per_page=50, page=2)` on a fresh
client the default-header dict holds the two extra entries. -/
theorem c10_witness :
    (listReleases (ghInit (some "o") (some "r")) false
        (ListingOutcome.response 200 []) 50 2).state.gh_default_header
      = [("Accept", "application/vnd.github.v3+json"),
         ("per_page", toString (50 : Int)), ("page", toString (2 : Int))] :=
  (c10_default_header_mutation (some "o") (some "r") false
    (ListingOutcome.response 200 []) 50 2 (by decide) (by decide)).1
